import Mathlib

/-!
Shallow embedding of the tag-verification core of `src/server.js`
(MakeBeauty NFC backend).

Conventions of the embedding:
* JS numbers that hold counters and timestamps are modelled as `Int`
  (all values in play are integers; no floating point is involved in the
  verification logic).
* JS truthiness of the optional request fields is modelled explicitly:
  a missing field is `none`; `some ""` and `some 0` are falsy exactly as
  in JS (`!uid`, `signature && ...`, `counter && ...`, `counter || ...`).
* The HMAC-SHA256 primitive (`crypto.createHmac`) is an external
  collaborator; the orchestrator is parametric in a function
  `hmac : String → String → String` (key, message ↦ digest).  Nothing in
  the verification logic depends on which function it is.
* The storage collaborator (`Product.findOne` / `product.save`) is
  modelled by passing the looked-up record in and returning the record
  as it stands after the request (`verifyStep`); the lookup itself is
  `findByUID` over a list of records.
-/

/-- One entry of the `scans` array of the product schema
(`src/server.js` lines 51-56).  Fields that verification never reads
(`userAgent` is only stored) are kept for fidelity of the appended
event. -/
structure ScanEvent where
  timestamp : Int
  location : String
  ipAddress : Option String
  userAgent : String
deriving Repr, DecidableEq

/-- The product record (`ProductSchema`, `src/server.js` lines 38-59),
restricted to the fields the verification endpoint reads or writes.
Fields the endpoint merely echoes verbatim into the response
(batch number, manufacturing location, ...) are omitted. -/
structure Product where
  nfcUID : String
  productId : String
  productName : String
  secretKey : Option String
  scanCount : Int
  isActive : Bool
  syncedFromSheets : Bool
  scans : List ScanEvent
  manufacturingDate : Option Int
  expiryDate : Option Int
deriving Repr, DecidableEq

/-- The body of a `POST /api/verify-product` request
(`const { uid, signature, counter } = req.body`, plus
`req.body.location`). -/
structure Request where
  uid : Option String
  signature : Option String
  counter : Option Int
  location : Option String
deriving Repr, DecidableEq

/-- Verdict of `detectClonePattern`: the JS object
`{ suspicious, reason? }`. -/
structure CloneCheck where
  suspicious : Bool
  reason : Option String
deriving Repr, DecidableEq

/-- The success payload of the endpoint, restricted to the fields that
are computed (rather than copied verbatim from the record). -/
structure SuccessResponse where
  productId : String
  name : String
  scanCount : Int
  isFirstScan : Bool
  ageInDays : Option Int
  isExpired : Bool
  status : String
  suspicious : Bool
  warning : Option String
deriving Repr, DecidableEq

/-- Outcome of one verification request: an error response
(HTTP status, `error` string, `details` string) or the success
payload. -/
inductive VerifyOutcome where
  | failure (status : Nat) (error : String) (details : String)
  | ok (resp : SuccessResponse)
deriving Repr, DecidableEq

/-- Characters matched by the JS regex class `\s` (the ASCII ones;
the verification logic only ever meets ASCII identifiers). -/
def jsWhitespace (c : Char) : Bool :=
  c == ' ' || c == '\t' || c == '\n' || c == '\r' ||
  c == Char.ofNat 11 || c == Char.ofNat 12

/-- Characters matched by `[0-9A-F]`. -/
def isHexUpper (c : Char) : Bool :=
  c.isDigit || (decide ('A' ≤ c) && decide (c ≤ 'F'))

/-- `String.prototype.trim` on a list of characters. -/
def jsTrimList (cs : List Char) : List Char :=
  ((cs.dropWhile jsWhitespace).reverse.dropWhile jsWhitespace).reverse

/-- Characters removed by `uid.replace(/[:\s-]/g, '')` in `isValidUID`. -/
def isUIDStripChar (c : Char) : Bool :=
  c == ':' || c == '-' || jsWhitespace c

/-- `isValidUID` (`src/server.js` lines 76-81): strip `:`, `-` and
whitespace, upper-case, trim, then require 14-20 hex characters. -/
def isValidUID (uid : String) : Bool :=
  if uid == "" then false
  else
    let normalized :=
      jsTrimList ((uid.toList.filter (fun c => !(isUIDStripChar c))).map Char.toUpper)
    decide (14 ≤ normalized.length) && decide (normalized.length ≤ 20) &&
      normalized.all isHexUpper

/-- The lookup normalization of the endpoint
(`uid.replace(/[:\s]/g, '').toUpperCase()`, `src/server.js` line 145):
strips colons and whitespace only - NOT hyphens - and upper-cases. -/
def normalizeLookupUID (uid : String) : String :=
  ((uid.toList.filter (fun c => !(c == ':' || jsWhitespace c))).map Char.toUpper).asString

/-- Whether the first list is an initial segment of the second. -/
def leadsWith : List Char → List Char → Bool
  | [], _ => true
  | _ :: _, [] => false
  | a :: s, b :: l => a == b && leadsWith s l

/-- Whether the first list occurs contiguously inside the second. -/
def containsSub (sub : List Char) : List Char → Bool
  | [] => sub.isEmpty
  | c :: t => leadsWith sub (c :: t) || containsSub sub t

/-- JS `String.prototype.includes`. -/
def includesSubstr (s sub : String) : Bool :=
  containsSub sub.toList s.toList

/-- The demo-UID test (`src/server.js` lines 174-176): substring
containment of any of the three literals in the normalized UID. -/
def isDemoUID (normalizedUID : String) : Bool :=
  includesSubstr normalizedUID "AABBCCDDDEEFF" ||
  includesSubstr normalizedUID "112233445566" ||
  includesSubstr normalizedUID "DEMO"

/-- JS truthiness of an optional string field (missing or `""` is
falsy). -/
def strTruthy : Option String → Bool
  | none => false
  | some s => s != ""

/-- JS truthiness of an optional integer field (missing or `0` is
falsy). -/
def intTruthy : Option Int → Bool
  | none => false
  | some n => n != 0

/-- JS template interpolation of the `counter` field into
`` `${uid}:${counter}` `` : a missing field prints as `undefined`. -/
def counterStr : Option Int → String
  | none => "undefined"
  | some n => toString n

/-- Burst reason string (`src/server.js` line 96). -/
def reasonBurst : String := "Múltiplos scans em menos de 1 minuto"

/-- IP-diversity reason string (`src/server.js` line 107). -/
def reasonIPs : String := "Muitos IPs diferentes em 24h"

/-- `detectClonePattern` (`src/server.js` lines 86-111), with
`Date.now()` passed in explicitly as `now`.  The JS
`[...new Set(...)].length` only ever feeds a cardinality test, so
`List.dedup` (which also keeps one copy per distinct value) is a
faithful model of the distinct count. -/
def detectClonePattern (now : Int) (scans : List ScanEvent) : CloneCheck :=
  if scans.length < 2 then { suspicious := false, reason := none }
  else
    let recentScans := scans.filter (fun s => decide (now - s.timestamp < 60000))
    if recentScans.length > 5 then
      { suspicious := true, reason := some reasonBurst }
    else
      let last24h := scans.filter (fun s => decide (now - s.timestamp < 86400000))
      let uniqueIPs :=
        ((last24h.filterMap ScanEvent.ipAddress).filter (fun ip => ip != "")).dedup
      if uniqueIPs.length > 10 then
        { suspicious := true, reason := some reasonIPs }
      else { suspicious := false, reason := none }

/-- Error string of the missing-UID rejection (line 128). -/
def errUIDRequired : String := "UID da tag NFC é obrigatório"

/-- Details string of the missing-UID rejection (line 129). -/
def detUIDRequired : String := "Por favor, forneça o UID do produto."

/-- Error string of the malformed-UID rejection (line 139). -/
def errUIDFormat : String := "Formato de UID inválido"

/-- Details string of the malformed-UID rejection (line 140). -/
def detUIDFormat : String := "O UID fornecido não está no formato correto."

/-- Error string of the unknown-UID rejection (line 156). -/
def errNotFound : String := "Tag NFC não registrada no sistema Make Beauty"

/-- Details string of the unknown-UID rejection (line 157). -/
def detNotFound : String :=
  "Este produto não foi encontrado em nossa base de dados. Verifique se a tag foi registrada corretamente."

/-- Error string of the inactive-record rejection (line 168). -/
def errInactive : String := "Produto foi bloqueado ou recolhido"

/-- Details string of the inactive-record rejection (line 169). -/
def detInactive : String :=
  "Este produto foi marcado como inativo em nosso sistema. Entre em contato com o suporte."

/-- Error string of the signature-mismatch rejection (line 195). -/
def errSignature : String := "Assinatura criptográfica inválida"

/-- Details string of the signature-mismatch rejection (line 196). -/
def detSignature : String :=
  "A assinatura digital desta tag não confere. Produto possivelmente falsificado."

/-- Error string of the counter-replay rejection (line 211). -/
def errCounter : String := "Contador de leituras inválido - tag possivelmente clonada"

/-- Details string of the counter-replay rejection (line 212). -/
def detCounter : String := "O contador de verificações não está correto."

/-- The verification endpoint (`POST /api/verify-product`,
`src/server.js` lines 116-300), from request parsing to the saved
record, with the storage lookup factored out: `found` is the result of
`Product.findOne({ nfcUID: normalizedUID })` and the second component
of the result is the state of that record after the request (Mongoose
`save` persists the in-place mutation only on the success path).
`hmac` is the `crypto.createHmac('sha256', key).update(msg)` digest
function; `now` is `Date.now()`; `ip` and `ua` are the already-resolved
client address and user agent. -/
def verifyStep (hmac : String → String → String) (now : Int) (ip ua : String)
    (req : Request) (found : Option Product) : VerifyOutcome × Option Product :=
  if !(strTruthy req.uid) then
    (.failure 400 errUIDRequired detUIDRequired, found)
  else
    let uid := req.uid.getD ""
    if !(isValidUID uid) then
      (.failure 400 errUIDFormat detUIDFormat, found)
    else
      match found with
      | none => (.failure 404 errNotFound detNotFound, none)
      | some product =>
        if !product.isActive then
          (.failure 403 errInactive detInactive, some product)
        else
          let demo := isDemoUID (normalizeLookupUID uid)
          let sheets := product.syncedFromSheets
          let expected := hmac (product.secretKey.getD "")
            (uid ++ ":" ++ counterStr req.counter)
          if (!demo && !sheets && strTruthy req.signature && strTruthy product.secretKey)
              && (req.signature.getD "" != expected) then
            (.failure 403 errSignature detSignature, some product)
          else if (!demo && !sheets && intTruthy req.counter)
              && decide (req.counter.getD 0 ≤ product.scanCount) then
            (.failure 403 errCounter detCounter, some product)
          else
            let newCount :=
              if intTruthy req.counter then req.counter.getD 0
              else product.scanCount + 1
            let loc := if strTruthy req.location then req.location.getD "" else "Web"
            let newScans := product.scans ++ [⟨now, loc, some ip, ua⟩]
            let cloneCheck := detectClonePattern now newScans
            let expired :=
              match product.expiryDate with
              | some e => decide (e < now)
              | none => false
            let updated := { product with scanCount := newCount, scans := newScans }
            (.ok {
              productId := product.productId
              name := product.productName
              scanCount := newCount
              isFirstScan := newCount == 1
              ageInDays := product.manufacturingDate.map (fun m => Int.fdiv (now - m) 86400000)
              isExpired := expired
              status := if expired then "Vencido" else "Válido"
              suspicious := cloneCheck.suspicious
              warning := if cloneCheck.suspicious then cloneCheck.reason else none },
             some updated)

/-- The storage lookup of the endpoint: `Product.findOne({ nfcUID:
normalizedUID })` over a list-modelled store, keyed by the lookup
normalization of the raw request identifier. -/
def findByUID (db : List Product) (raw : String) : Option Product :=
  db.find? (fun p => p.nfcUID == normalizeLookupUID raw)

/-- Modelled from the spec: the canonical form of section 4.1, which
"strips colons, hyphens, and whitespace; upper-cases the remainder".
Kept separate from `normalizeLookupUID` (the code's lookup
normalization) so the two can be compared (claim C4). -/
def specCanonicalForm (uid : String) : String :=
  ((uid.toList.filter (fun c => !(c == ':' || c == '-' || jsWhitespace c))).map Char.toUpper).asString

/-- Modelled from the spec: the "small fixed set of designated
demonstration identifiers" of section 4.2, read as the set of the three
literals occurring in the code, membership meaning equality with one of
them (claim C5). -/
def demoIdentifiers : List String := ["AABBCCDDDEEFF", "112233445566", "DEMO"]

/-- True when the outcome of a verification is the success payload. -/
def outcomeOk (r : VerifyOutcome × Option Product) : Bool :=
  match r.1 with
  | .ok _ => true
  | .failure _ _ _ => false

/-- The stored counter after a verification (0 when no record). -/
def scanCountAfter (r : VerifyOutcome × Option Product) : Int :=
  match r.2 with
  | some p => p.scanCount
  | none => 0

/-- A concrete stand-in for the HMAC collaborator, used by the concrete
counterexamples and witnesses (the verification logic is parametric in
it). -/
def demoHmac (key msg : String) : String := key ++ "|" ++ msg

/-- A well-formed, non-demo identifier (14 hex characters). -/
def uidStd : String := "0123456789ABCD"

/-- A well-formed identifier containing the demo substring
`112233445566`. -/
def uidDemo : String := "112233445566AB"

/-- A registered, active, non-waived record with a secret and stored
counter 3. -/
def prodStd : Product :=
  { nfcUID := uidStd
    productId := "P001"
    productName := "Serum"
    secretKey := some "SECRETKEY"
    scanCount := 3
    isActive := true
    syncedFromSheets := false
    scans := []
    manufacturingDate := none
    expiryDate := none }

/-- The same record marked as imported from the spreadsheet
(trusted). -/
def prodTrusted : Product := { prodStd with syncedFromSheets := true }

/-- The trusted record with stored counter 5. -/
def prodTrusted5 : Product := { prodTrusted with scanCount := 5 }

/-- The standard record, deactivated. -/
def prodInactive : Product := { prodStd with isActive := false }

/-- A non-trusted record registered under the demo-substring
identifier. -/
def prodDemo : Product := { prodStd with nfcUID := uidDemo }

/-- Six scan events, all 10-20 seconds before the reference time
100000. -/
def burstScans : List ScanEvent :=
  [⟨80000, "Web", some "1.1.1.1", "ua"⟩,
   ⟨82000, "Web", some "1.1.1.1", "ua"⟩,
   ⟨84000, "Web", some "1.1.1.1", "ua"⟩,
   ⟨86000, "Web", some "1.1.1.1", "ua"⟩,
   ⟨88000, "Web", some "1.1.1.1", "ua"⟩,
   ⟨90000, "Web", some "1.1.1.1", "ua"⟩]

/-- Three scan events spread over a week (reference time
604800000). -/
def spreadScans : List ScanEvent :=
  [⟨0, "Web", some "1.1.1.1", "ua"⟩,
   ⟨302400000, "Web", some "2.2.2.2", "ua"⟩,
   ⟨604000000, "Web", some "3.3.3.3", "ua"⟩]

/-!  Theorems.  -/

/-- C1, counterexample: on the non-waived record `prodStd` (secret
present, stored counter 3), a request supplying the integer counter 0 -
which is "3 or lower" - is NOT rejected as a replay: it is accepted and
the stored counter becomes 4.  The replay guard
(`src/server.js` line 205) only runs when `counter` is truthy, and 0 is
falsy in JS. -/
theorem C1_counterexample :
    (0 : Int) ≤ 3 ∧ prodStd.scanCount = 3 ∧
    outcomeOk (verifyStep demoHmac 0 "ip" "ua"
      ⟨some uidStd, none, some 0, none⟩ (some prodStd)) = true ∧
    scanCountAfter (verifyStep demoHmac 0 "ip" "ua"
      ⟨some uidStd, none, some 0, none⟩ (some prodStd)) = 4 := by
  decide

/-- C2, counterexample: on the trusted record `prodTrusted` (stored
counter 3), an accepted scan supplying counter 100 stores 100, not 3+1:
`product.scanCount = counter || (product.scanCount + 1)`
(`src/server.js` line 228) keeps any truthy supplied counter. -/
theorem C2_counterexample :
    prodTrusted.syncedFromSheets = true ∧ prodTrusted.scanCount = 3 ∧
    outcomeOk (verifyStep demoHmac 0 "ip" "ua"
      ⟨some uidStd, some "garbage", some 100, none⟩ (some prodTrusted)) = true ∧
    scanCountAfter (verifyStep demoHmac 0 "ip" "ua"
      ⟨some uidStd, some "garbage", some 100, none⟩ (some prodTrusted)) = 100 ∧
    (100 : Int) ≠ prodTrusted.scanCount + 1 := by
  decide

/-- C3, counterexample: on the trusted record `prodTrusted5` (stored
counter 5), an accepted scan supplying counter 2 stores 2: the stored
scan counter DECREASES from 5 to 2, because the counter guard is
skipped for waived records while line 228 still stores the supplied
counter. -/
theorem C3_counterexample :
    prodTrusted5.scanCount = 5 ∧
    outcomeOk (verifyStep demoHmac 0 "ip" "ua"
      ⟨some uidStd, none, some 2, none⟩ (some prodTrusted5)) = true ∧
    scanCountAfter (verifyStep demoHmac 0 "ip" "ua"
      ⟨some uidStd, none, some 2, none⟩ (some prodTrusted5)) = 2 ∧
    (2 : Int) < prodTrusted5.scanCount := by
  decide

/-- C4, counterexample: `"0123456789ABCD"` and `"01-23-45-67-89-AB-CD"`
have the same spec-canonical form (strip colons, hyphens, whitespace;
upper-case) and both pass format validation, yet the endpoint's lookup
normalization (`src/server.js` line 145) keeps hyphens, so they are
looked up under different keys and produce different lookup results. -/
theorem C4_counterexample :
    specCanonicalForm "0123456789ABCD" = specCanonicalForm "01-23-45-67-89-AB-CD" ∧
    isValidUID "0123456789ABCD" = true ∧
    isValidUID "01-23-45-67-89-AB-CD" = true ∧
    normalizeLookupUID "0123456789ABCD" ≠ normalizeLookupUID "01-23-45-67-89-AB-CD" ∧
    findByUID [prodStd] "0123456789ABCD" = some prodStd ∧
    findByUID [prodStd] "01-23-45-67-89-AB-CD" = none := by
  decide

/-- C5, counterexample: the identifier `"112233445566AB"` is not a
member of the fixed set of designated demonstration identifiers and its
record `prodDemo` is not trusted, yet a request with a bogus signature
and a stale counter (1 with stored counter 3) is accepted: the code
waives the checks by substring containment
(`normalizedUID.includes(...)`, `src/server.js` line 174), not by set
membership. -/
theorem C5_counterexample :
    isDemoUID (normalizeLookupUID uidDemo) = true ∧
    demoIdentifiers.contains (normalizeLookupUID uidDemo) = false ∧
    prodDemo.syncedFromSheets = false ∧ prodDemo.scanCount = 3 ∧
    outcomeOk (verifyStep demoHmac 0 "ip" "ua"
      ⟨some uidDemo, some "bad", some 1, none⟩ (some prodDemo)) = true := by
  decide

/-- C8, counterexample: the three Forbidden branches return three
different `error` strings (`src/server.js` lines 168, 195, 211), so
the response body does reveal which check failed. -/
theorem C8_counterexample :
    (verifyStep demoHmac 0 "ip" "ua"
      ⟨some uidStd, none, none, none⟩ (some prodInactive)).1 =
      .failure 403 errInactive detInactive ∧
    (verifyStep demoHmac 0 "ip" "ua"
      ⟨some uidStd, some "bad", none, none⟩ (some prodStd)).1 =
      .failure 403 errSignature detSignature ∧
    (verifyStep demoHmac 0 "ip" "ua"
      ⟨some uidStd, none, some 2, none⟩ (some prodStd)).1 =
      .failure 403 errCounter detCounter ∧
    errInactive ≠ errSignature ∧ errInactive ≠ errCounter ∧
    errSignature ≠ errCounter := by
  decide

/-- C6: the clone pattern detector, as a pure function of the scan
history and the current time, (1) returns not-suspicious for every
history with fewer than 2 events; (2) returns suspicious with the burst
reason for every history of 6 events all within the last 30 seconds;
(3) returns not-suspicious for every history of 3 events (in
particular for 3 events spread over a week: with only 3 events neither
the burst threshold of more than 5 recent scans nor the threshold of
more than 10 distinct IPs can be reached). -/
theorem C6_clone_detector :
    (∀ (now : Int) (scans : List ScanEvent), scans.length < 2 →
        detectClonePattern now scans = { suspicious := false, reason := none }) ∧
    (∀ (now : Int) (scans : List ScanEvent), scans.length = 6 →
        (∀ s ∈ scans, 0 ≤ now - s.timestamp ∧ now - s.timestamp < 30000) →
        detectClonePattern now scans = { suspicious := true, reason := some reasonBurst }) ∧
    (∀ (now : Int) (scans : List ScanEvent), scans.length = 3 →
        (detectClonePattern now scans).suspicious = false) := by
  refine ⟨?_, ?_, ?_⟩
  · intro now scans h
    simp [detectClonePattern, h]
  · intro now scans h6 hall
    have hfull : scans.filter (fun s => decide (now - s.timestamp < 60000)) = scans := by
      rw [List.filter_eq_self]
      intro a ha
      have := hall a ha
      simp only [decide_eq_true_eq]
      omega
    simp only [detectClonePattern, hfull, h6]
    norm_num
  · intro now scans h3
    have h60 : (scans.filter (fun s => decide (now - s.timestamp < 60000))).length ≤ 3 :=
      h3 ▸ List.length_filter_le _ _
    have h24 : (((scans.filter (fun s => decide (now - s.timestamp < 86400000))).filterMap
        ScanEvent.ipAddress).filter (fun ip => ip != "")).dedup.length ≤ 3 := by
      have a1 := (List.dedup_sublist (((scans.filter
        (fun s => decide (now - s.timestamp < 86400000))).filterMap
        ScanEvent.ipAddress).filter (fun ip => ip != ""))).length_le
      have a2 := List.length_filter_le (fun ip => ip != "")
        ((scans.filter (fun s => decide (now - s.timestamp < 86400000))).filterMap
          ScanEvent.ipAddress)
      have a3 := List.length_filterMap_le ScanEvent.ipAddress
        (scans.filter (fun s => decide (now - s.timestamp < 86400000)))
      have a4 := List.length_filter_le (fun s => decide (now - s.timestamp < 86400000)) scans
      omega
    simp only [detectClonePattern, h3]
    rw [if_neg (by omega), if_neg (by omega), if_neg (by omega)]

/-- C6, witness: the theorem applied to the empty history, to six
events 10-20 seconds old, and to three events spread over a week. -/
theorem C6_clone_detector_witness :
    detectClonePattern 0 [] = { suspicious := false, reason := none } ∧
    detectClonePattern 100000 burstScans = { suspicious := true, reason := some reasonBurst } ∧
    (detectClonePattern 604800000 spreadScans).suspicious = false :=
  ⟨C6_clone_detector.1 0 [] (by decide),
   C6_clone_detector.2.1 100000 burstScans (by decide) (by decide),
   C6_clone_detector.2.2 604800000 spreadScans (by decide)⟩

/-- Helper: a request on a well-formed identifier and an active record
is accepted whenever both guard conditions are defused (each
disjunction lists the ways the corresponding guard can be false), and
the stored counter becomes the supplied counter when truthy, else the
old counter plus one. -/
theorem verifyStep_accepts (hmac : String → String → String) (now : Int) (ip ua : String)
    (u : String) (sig : Option String) (ctr : Option Int) (loc : Option String) (pr : Product)
    (hu : u ≠ "") (hvalid : isValidUID u = true) (hactive : pr.isActive = true)
    (hs : isDemoUID (normalizeLookupUID u) = true ∨ pr.syncedFromSheets = true ∨
      strTruthy sig = false ∨ strTruthy pr.secretKey = false ∨
      sig.getD "" = hmac (pr.secretKey.getD "") (u ++ ":" ++ counterStr ctr))
    (hc : isDemoUID (normalizeLookupUID u) = true ∨ pr.syncedFromSheets = true ∨
      intTruthy ctr = false ∨ decide (ctr.getD 0 ≤ pr.scanCount) = false) :
    outcomeOk (verifyStep hmac now ip ua ⟨some u, sig, ctr, loc⟩ (some pr)) = true ∧
    scanCountAfter (verifyStep hmac now ip ua ⟨some u, sig, ctr, loc⟩ (some pr)) =
      (if intTruthy ctr then ctr.getD 0 else pr.scanCount + 1) := by
  have huT : strTruthy (some u) = true := by simp [strTruthy, hu]
  have hcond1 : ((!(isDemoUID (normalizeLookupUID u)) && !pr.syncedFromSheets &&
      strTruthy sig && strTruthy pr.secretKey) &&
      (sig.getD "" != hmac (pr.secretKey.getD "") (u ++ ":" ++ counterStr ctr))) = false := by
    rcases hs with h | h | h | h | h <;> simp [h]
  have hcond2 : ((!(isDemoUID (normalizeLookupUID u)) && !pr.syncedFromSheets &&
      intTruthy ctr) && decide (ctr.getD 0 ≤ pr.scanCount)) = false := by
    rcases hc with h | h | h | h <;> simp [h]
  simp [verifyStep, huT, hvalid, hactive, hcond1, hcond2, outcomeOk, scanCountAfter]

/-- Helper: a request on a well-formed identifier and an active,
non-waived record with a truthy signature and a truthy secret is
rejected with the signature error when the signature mismatches. -/
theorem verifyStep_sig_mismatch (hmac : String → String → String) (now : Int) (ip ua : String)
    (u : String) (sig : Option String) (ctr : Option Int) (loc : Option String) (pr : Product)
    (hu : u ≠ "") (hvalid : isValidUID u = true) (hactive : pr.isActive = true)
    (hdemo : isDemoUID (normalizeLookupUID u) = false) (hsheets : pr.syncedFromSheets = false)
    (hsigT : strTruthy sig = true) (hkeyT : strTruthy pr.secretKey = true)
    (hmis : sig.getD "" ≠ hmac (pr.secretKey.getD "") (u ++ ":" ++ counterStr ctr)) :
    verifyStep hmac now ip ua ⟨some u, sig, ctr, loc⟩ (some pr) =
      (.failure 403 errSignature detSignature, some pr) := by
  have huT : strTruthy (some u) = true := by simp [strTruthy, hu]
  have hcond1 : ((!(isDemoUID (normalizeLookupUID u)) && !pr.syncedFromSheets &&
      strTruthy sig && strTruthy pr.secretKey) &&
      (sig.getD "" != hmac (pr.secretKey.getD "") (u ++ ":" ++ counterStr ctr))) = true := by
    simp [hdemo, hsheets, hsigT, hkeyT, hmis]
  simp [verifyStep, huT, hvalid, hactive, hcond1]

/-- Helper: a request on a well-formed identifier and an active,
non-waived record whose signature check does not fire is rejected with
the replay error when a truthy counter at or below the stored counter
is supplied. -/
theorem verifyStep_replay (hmac : String → String → String) (now : Int) (ip ua : String)
    (u : String) (sig : Option String) (ctr : Option Int) (loc : Option String) (pr : Product)
    (hu : u ≠ "") (hvalid : isValidUID u = true) (hactive : pr.isActive = true)
    (hdemo : isDemoUID (normalizeLookupUID u) = false) (hsheets : pr.syncedFromSheets = false)
    (hsig : strTruthy sig = false ∨ strTruthy pr.secretKey = false ∨
      sig.getD "" = hmac (pr.secretKey.getD "") (u ++ ":" ++ counterStr ctr))
    (hctrT : intTruthy ctr = true) (hle : ctr.getD 0 ≤ pr.scanCount) :
    verifyStep hmac now ip ua ⟨some u, sig, ctr, loc⟩ (some pr) =
      (.failure 403 errCounter detCounter, some pr) := by
  have huT : strTruthy (some u) = true := by simp [strTruthy, hu]
  have hcond1 : ((!(isDemoUID (normalizeLookupUID u)) && !pr.syncedFromSheets &&
      strTruthy sig && strTruthy pr.secretKey) &&
      (sig.getD "" != hmac (pr.secretKey.getD "") (u ++ ":" ++ counterStr ctr))) = false := by
    rcases hsig with h | h | h <;> simp [h]
  have hcond2 : ((!(isDemoUID (normalizeLookupUID u)) && !pr.syncedFromSheets &&
      intTruthy ctr) && decide (ctr.getD 0 ≤ pr.scanCount)) = true := by
    simp [hdemo, hsheets, hctrT, hle]
  simp [verifyStep, huT, hvalid, hactive, hcond1, hcond2]

/-- C1 (amended): for a verification request on a non-waived record
with a secret and stored counter 3, any request supplying a NONZERO
counter of 3 or lower whose signature check does not already fire
(no signature supplied, or the correctly computed one) is rejected with
Forbidden as a replay, and a request supplying counter 4 together with
the correctly computed signature over `"<id>:4"` is accepted with the
stored counter becoming 4.  (The original claim fails only at
counter 0, which JS treats as absent: see the counterexample.) -/
theorem C1_replay_guard_and_advance (hmac : String → String → String) (now : Int)
    (ip ua : String) (u k : String) (loc : Option String) (pr : Product)
    (hu : u ≠ "") (hvalid : isValidUID u = true)
    (hdemo : isDemoUID (normalizeLookupUID u) = false)
    (hactive : pr.isActive = true) (hsheets : pr.syncedFromSheets = false)
    (hkey : pr.secretKey = some k) (hcount : pr.scanCount = 3) :
    (∀ (c : Int) (sig : Option String), c ≠ 0 → c ≤ 3 →
        (sig = none ∨ sig = some (hmac k (u ++ ":" ++ counterStr (some c)))) →
        verifyStep hmac now ip ua ⟨some u, sig, some c, loc⟩ (some pr) =
          (.failure 403 errCounter detCounter, some pr)) ∧
    outcomeOk (verifyStep hmac now ip ua
      ⟨some u, some (hmac k (u ++ ":" ++ counterStr (some 4))), some 4, loc⟩
      (some pr)) = true ∧
    scanCountAfter (verifyStep hmac now ip ua
      ⟨some u, some (hmac k (u ++ ":" ++ counterStr (some 4))), some 4, loc⟩
      (some pr)) = 4 := by
  refine ⟨?_, ?_⟩
  · intro c sig hc hle hs
    apply verifyStep_replay hmac now ip ua u sig (some c) loc pr hu hvalid hactive hdemo hsheets
    · rcases hs with rfl | rfl
      · exact Or.inl rfl
      · right; right; simp [hkey]
    · simp [intTruthy, hc]
    · simp [hcount]; exact hle
  · have h := verifyStep_accepts hmac now ip ua u
      (some (hmac k (u ++ ":" ++ counterStr (some 4)))) (some 4) loc pr hu hvalid hactive
      (Or.inr (Or.inr (Or.inr (Or.inr (by simp [hkey])))))
      (Or.inr (Or.inr (Or.inr (by simp [hcount]))))
    refine ⟨h.1, ?_⟩
    rw [h.2]
    simp [intTruthy]

/-- C1, witness: on the concrete record `prodStd`, counter 2 with no
signature is rejected as replay, and counter 4 with the correctly
computed signature is accepted with stored counter 4. -/
theorem C1_witness :
    verifyStep demoHmac 0 "ip" "ua" ⟨some uidStd, none, some 2, none⟩ (some prodStd) =
      (.failure 403 errCounter detCounter, some prodStd) ∧
    outcomeOk (verifyStep demoHmac 0 "ip" "ua"
      ⟨some uidStd, some (demoHmac "SECRETKEY" (uidStd ++ ":" ++ counterStr (some 4))),
        some 4, none⟩ (some prodStd)) = true ∧
    scanCountAfter (verifyStep demoHmac 0 "ip" "ua"
      ⟨some uidStd, some (demoHmac "SECRETKEY" (uidStd ++ ":" ++ counterStr (some 4))),
        some 4, none⟩ (some prodStd)) = 4 :=
  have h := C1_replay_guard_and_advance demoHmac 0 "ip" "ua" uidStd "SECRETKEY" none prodStd
    (by decide) (by decide) (by decide) rfl rfl rfl rfl
  ⟨h.1 2 none (by decide) (by decide) (Or.inl rfl), h.2.1, h.2.2⟩

/-- C2 (amended): for every trusted (syncedFromSheets) or demo, active
record with a well-formed identifier, verification succeeds regardless
of the signature and counter values supplied; the stored counter
increases by exactly 1 only when no counter (or the falsy counter 0) is
supplied - a truthy supplied counter becomes the stored value as-is.
(The original "increments by exactly 1 per accepted scan" fails
whenever a nonzero counter is supplied: see the counterexample.) -/
theorem C2_waived_accepts (hmac : String → String → String) (now : Int) (ip ua : String)
    (u : String) (sig : Option String) (ctr : Option Int) (loc : Option String) (pr : Product)
    (hu : u ≠ "") (hvalid : isValidUID u = true) (hactive : pr.isActive = true)
    (hwaived : pr.syncedFromSheets = true ∨ isDemoUID (normalizeLookupUID u) = true) :
    outcomeOk (verifyStep hmac now ip ua ⟨some u, sig, ctr, loc⟩ (some pr)) = true ∧
    scanCountAfter (verifyStep hmac now ip ua ⟨some u, sig, ctr, loc⟩ (some pr)) =
      (if intTruthy ctr then ctr.getD 0 else pr.scanCount + 1) := by
  rcases hwaived with h | h
  · exact verifyStep_accepts hmac now ip ua u sig ctr loc pr hu hvalid hactive
      (Or.inr (Or.inl h)) (Or.inr (Or.inl h))
  · exact verifyStep_accepts hmac now ip ua u sig ctr loc pr hu hvalid hactive
      (Or.inl h) (Or.inl h)

/-- C2, witness: the trusted record `prodTrusted` (stored counter 3)
accepts a scan with no counter and a bogus signature; the counter
becomes 4. -/
theorem C2_witness :
    outcomeOk (verifyStep demoHmac 0 "ip" "ua"
      ⟨some uidStd, some "garbage", none, none⟩ (some prodTrusted)) = true ∧
    scanCountAfter (verifyStep demoHmac 0 "ip" "ua"
      ⟨some uidStd, some "garbage", none, none⟩ (some prodTrusted)) = 4 :=
  have h := C2_waived_accepts demoHmac 0 "ip" "ua" uidStd (some "garbage") none none
    prodTrusted (by decide) (by decide) rfl (Or.inl rfl)
  ⟨h.1, by rw [h.2]; decide⟩

/-- Helper: every run either succeeds (returning a saved record) or
leaves the looked-up record exactly as it was. -/
theorem verifyStep_shape (hmac : String → String → String) (now : Int) (ip ua : String)
    (req : Request) (found : Option Product) :
    (∃ resp upd, verifyStep hmac now ip ua req found = (.ok resp, some upd)) ∨
    (verifyStep hmac now ip ua req found).2 = found := by
  unfold verifyStep
  dsimp only
  repeat' split
  all_goals first
    | exact Or.inl ⟨_, _, rfl⟩
    | (right; rfl)

/-- Helper: on a successful run the stored counter becomes the supplied
counter when truthy, else the old counter plus one; moreover the replay
guard condition was false. -/
theorem verifyStep_ok_scanCount (hmac : String → String → String) (now : Int) (ip ua : String)
    (req : Request) (pr : Product)
    (hok : outcomeOk (verifyStep hmac now ip ua req (some pr)) = true) :
    scanCountAfter (verifyStep hmac now ip ua req (some pr)) =
      (if intTruthy req.counter then req.counter.getD 0 else pr.scanCount + 1) ∧
    ((!(isDemoUID (normalizeLookupUID (req.uid.getD ""))) && !pr.syncedFromSheets &&
        intTruthy req.counter) && decide (req.counter.getD 0 ≤ pr.scanCount)) = false := by
  unfold verifyStep at hok ⊢
  dsimp only at hok ⊢
  repeat' split
  all_goals simp_all [outcomeOk, scanCountAfter]

/-- C3 (amended): on a NON-WAIVED record (not trusted, not a demo
identifier) the stored scan counter strictly increases on every
accepted scan, so it is monotonically non-decreasing across the
record's lifetime.  (For waived records the code stores any truthy
supplied counter, which may be lower: see the counterexample.) -/
theorem C3_nonwaived_monotone (hmac : String → String → String) (now : Int) (ip ua : String)
    (u : String) (sig : Option String) (ctr : Option Int) (loc : Option String) (pr : Product)
    (hdemo : isDemoUID (normalizeLookupUID u) = false)
    (hsheets : pr.syncedFromSheets = false)
    (hok : outcomeOk (verifyStep hmac now ip ua ⟨some u, sig, ctr, loc⟩ (some pr)) = true) :
    pr.scanCount < scanCountAfter (verifyStep hmac now ip ua ⟨some u, sig, ctr, loc⟩ (some pr)) := by
  have h := verifyStep_ok_scanCount hmac now ip ua ⟨some u, sig, ctr, loc⟩ pr hok
  rw [h.1]
  have hg := h.2
  dsimp only at hg ⊢
  by_cases hct : intTruthy ctr = true
  · rw [if_pos hct]
    simp [hdemo, hsheets, hct] at hg
    omega
  · rw [if_neg hct]
    omega

/-- C3, witness: the non-waived record `prodStd` (stored counter 3)
accepts counter 5 and the stored counter strictly increases. -/
theorem C3_witness :
    outcomeOk (verifyStep demoHmac 0 "ip" "ua"
      ⟨some uidStd, none, some 5, none⟩ (some prodStd)) = true ∧
    prodStd.scanCount < scanCountAfter (verifyStep demoHmac 0 "ip" "ua"
      ⟨some uidStd, none, some 5, none⟩ (some prodStd)) :=
  ⟨by decide,
   C3_nonwaived_monotone demoHmac 0 "ip" "ua" uidStd none (some 5) none prodStd
     (by decide) rfl (by decide)⟩

/-- C4 (amended): two raw identifier strings that agree after the
code's lookup normalization - stripping colons and whitespace (NOT
hyphens) and upper-casing - are looked up under the same key and
produce the same lookup result.  (The spec's canonical form also
strips hyphens; identifiers differing by hyphens are looked up under
different keys: see the counterexample.) -/
theorem C4_lookup_respects_normalization (db : List Product) (r1 r2 : String)
    (h : normalizeLookupUID r1 = normalizeLookupUID r2) :
    normalizeLookupUID r1 = normalizeLookupUID r2 ∧ findByUID db r1 = findByUID db r2 := by
  refine ⟨h, ?_⟩
  unfold findByUID
  rw [h]

/-- C4, witness: a colon-separated lower-case spelling and the plain
upper-case spelling of the same identifier produce the same key and the
same lookup result. -/
theorem C4_witness :
    normalizeLookupUID "01:23:456789abcd" = normalizeLookupUID "0123456789ABCD" ∧
    findByUID [prodStd] "01:23:456789abcd" = findByUID [prodStd] "0123456789ABCD" :=
  C4_lookup_respects_normalization [prodStd] "01:23:456789abcd" "0123456789ABCD" (by decide)

/-- C5 (amended): signature and counter checks are waived exactly when
the record is marked trustedSource (syncedFromSheets) or the normalized
identifier CONTAINS one of the designated demo substrings
(`AABBCCDDDEEFF`, `112233445566`, `DEMO`): a waived record accepts any
signature and counter, while on a non-waived record with a non-empty
secret a supplied wrong signature is rejected.  (Membership in a fixed
set of full identifiers is not what the code tests: see the
counterexample.) -/
theorem C5_waiver_rule (hmac : String → String → String) (now : Int) (ip ua : String)
    (u k sig : String) (ctr : Option Int) (loc : Option String) (pr : Product)
    (hu : u ≠ "") (hvalid : isValidUID u = true) (hactive : pr.isActive = true)
    (hkey : pr.secretKey = some k) :
    (pr.syncedFromSheets = true ∨ isDemoUID (normalizeLookupUID u) = true →
      outcomeOk (verifyStep hmac now ip ua ⟨some u, some sig, ctr, loc⟩ (some pr)) = true) ∧
    (pr.syncedFromSheets = false → isDemoUID (normalizeLookupUID u) = false →
      k ≠ "" → sig ≠ "" → sig ≠ hmac k (u ++ ":" ++ counterStr ctr) →
      (verifyStep hmac now ip ua ⟨some u, some sig, ctr, loc⟩ (some pr)).1 =
        .failure 403 errSignature detSignature) := by
  constructor
  · intro hw
    rcases hw with h | h
    · exact (verifyStep_accepts hmac now ip ua u (some sig) ctr loc pr hu hvalid hactive
        (Or.inr (Or.inl h)) (Or.inr (Or.inl h))).1
    · exact (verifyStep_accepts hmac now ip ua u (some sig) ctr loc pr hu hvalid hactive
        (Or.inl h) (Or.inl h)).1
  · intro hsheets hdemo hk hsne hmis
    have h := verifyStep_sig_mismatch hmac now ip ua u (some sig) ctr loc pr hu hvalid
      hactive hdemo hsheets (by simp [strTruthy, hsne]) (by simp [strTruthy, hkey, hk])
      (by simpa [hkey] using hmis)
    rw [h]

/-- C5, witness: the trusted record accepts a bogus signature with a
stale counter, while the non-waived record `prodStd` rejects a bogus
signature with the signature error. -/
theorem C5_witness :
    outcomeOk (verifyStep demoHmac 0 "ip" "ua"
      ⟨some uidStd, some "bad", some 1, none⟩ (some prodTrusted)) = true ∧
    (verifyStep demoHmac 0 "ip" "ua"
      ⟨some uidStd, some "bad", none, none⟩ (some prodStd)).1 =
      .failure 403 errSignature detSignature :=
  ⟨(C5_waiver_rule demoHmac 0 "ip" "ua" uidStd "SECRETKEY" "bad" (some 1) none prodTrusted
      (by decide) (by decide) rfl rfl).1 (Or.inl rfl),
   (C5_waiver_rule demoHmac 0 "ip" "ua" uidStd "SECRETKEY" "bad" none none prodStd
      (by decide) (by decide) rfl rfl).2 rfl (by decide) (by decide) (by decide) (by decide)⟩

/-- C7: no rejection path of verification mutates the tag record: if
the outcome is not the success payload, the record after the request is
exactly the looked-up record (and for BadRequest/NotFound there is no
record to touch at all). -/
theorem C7_rejections_preserve_record (hmac : String → String → String) (now : Int)
    (ip ua : String) (req : Request) (found : Option Product)
    (h : outcomeOk (verifyStep hmac now ip ua req found) = false) :
    (verifyStep hmac now ip ua req found).2 = found := by
  rcases verifyStep_shape hmac now ip ua req found with ⟨resp, upd, he⟩ | he
  · rw [he] at h
    simp [outcomeOk] at h
  · exact he

/-- C7, witness: a replay rejection on `prodStd` leaves the record
unchanged. -/
theorem C7_witness :
    outcomeOk (verifyStep demoHmac 0 "ip" "ua"
      ⟨some uidStd, none, some 2, none⟩ (some prodStd)) = false ∧
    (verifyStep demoHmac 0 "ip" "ua"
      ⟨some uidStd, none, some 2, none⟩ (some prodStd)).2 = some prodStd :=
  ⟨by decide,
   C7_rejections_preserve_record demoHmac 0 "ip" "ua"
     ⟨some uidStd, none, some 2, none⟩ (some prodStd) (by decide)⟩

/-- C8 (amended): every Forbidden (403) rejection is one of exactly
three branches - inactive record, signature mismatch, counter replay -
and the three carry three pairwise DISTINCT error/details strings, so
the response body does reveal which check failed; only the HTTP status
and the authentic-false flag are shared.  (The original "same generic
category without a distinguishing reason" is refuted by the
counterexample.) -/
theorem C8_forbidden_distinct :
    (∀ (hmac : String → String → String) (now : Int) (ip ua : String) (req : Request)
        (found : Option Product) (e d : String),
        (verifyStep hmac now ip ua req found).1 = .failure 403 e d →
        (e = errInactive ∧ d = detInactive) ∨ (e = errSignature ∧ d = detSignature) ∨
        (e = errCounter ∧ d = detCounter)) ∧
    errInactive ≠ errSignature ∧ errInactive ≠ errCounter ∧ errSignature ≠ errCounter := by
  constructor
  · intro hmac now ip ua req found e d h
    unfold verifyStep at h
    dsimp only at h
    repeat' split at h
    all_goals simp_all
  · exact ⟨by decide, by decide, by decide⟩

/-- C8, witness: the inactive-record rejection instantiates the
characterization. -/
theorem C8_witness :
    (verifyStep demoHmac 0 "ip" "ua"
      ⟨some uidStd, none, none, none⟩ (some prodInactive)).1 =
      .failure 403 errInactive detInactive ∧
    ((errInactive = errInactive ∧ detInactive = detInactive) ∨
      (errInactive = errSignature ∧ detInactive = detSignature) ∨
      (errInactive = errCounter ∧ detInactive = detCounter)) :=
  ⟨by decide,
   C8_forbidden_distinct.1 demoHmac 0 "ip" "ua" ⟨some uidStd, none, none, none⟩
     (some prodInactive) errInactive detInactive (by decide)⟩

/-- C10: for every non-waived record, a request supplying the integer
counter 0 is never rejected as a replay (whatever the stored counter),
and when accepted the stored counter becomes the previous stored
counter plus 1 rather than 0: JS treats the falsy counter 0 as absent
in both the replay guard (line 205) and the update (line 228). -/
theorem C10_zero_counter (hmac : String → String → String) (now : Int) (ip ua : String)
    (u : String) (sig loc : Option String) (pr : Product)
    (hsheets : pr.syncedFromSheets = false)
    (hdemo : isDemoUID (normalizeLookupUID u) = false) :
    (verifyStep hmac now ip ua ⟨some u, sig, some 0, loc⟩ (some pr)).1 ≠
      .failure 403 errCounter detCounter ∧
    (outcomeOk (verifyStep hmac now ip ua ⟨some u, sig, some 0, loc⟩ (some pr)) = true →
      scanCountAfter (verifyStep hmac now ip ua ⟨some u, sig, some 0, loc⟩ (some pr)) =
        pr.scanCount + 1) := by
  constructor
  · intro h
    unfold verifyStep at h
    dsimp only at h
    repeat' split at h
    all_goals simp_all [intTruthy, errUIDRequired, errUIDFormat, errNotFound, errInactive,
      errSignature, errCounter, detUIDRequired, detUIDFormat, detNotFound, detInactive,
      detSignature, detCounter]
  · intro hok
    have h := verifyStep_ok_scanCount hmac now ip ua ⟨some u, sig, some 0, loc⟩ pr hok
    rw [h.1]
    simp [intTruthy]

/-- C10, witness: counter 0 on `prodStd` (stored counter 3) is accepted
and the stored counter becomes 4. -/
theorem C10_witness :
    (verifyStep demoHmac 0 "ip" "ua"
      ⟨some uidStd, none, some 0, none⟩ (some prodStd)).1 ≠
      .failure 403 errCounter detCounter ∧
    outcomeOk (verifyStep demoHmac 0 "ip" "ua"
      ⟨some uidStd, none, some 0, none⟩ (some prodStd)) = true ∧
    scanCountAfter (verifyStep demoHmac 0 "ip" "ua"
      ⟨some uidStd, none, some 0, none⟩ (some prodStd)) = prodStd.scanCount + 1 :=
  have h := C10_zero_counter demoHmac 0 "ip" "ua" uidStd none none prodStd rfl (by decide)
  ⟨h.1, by decide, h.2 (by decide)⟩

